import Mathlib

/-!
Verification of the servo checks execution engine (`servo/checks.py`).

This file gives a shallow embedding of the checks subsystem: the `Check`
result record with its pydantic validators (including the BLAKE2b-based id
generation), the `Filter` predicate, result coercion (`_set_check_result`),
the handler runners, and the two-pass selection / halt-policy loop of
`BaseChecks.run_`.  Machine integers are modelled as `Nat` reduced mod 2^64
where the hash needs it; timestamps are modelled as `Int`; Python
exceptions are modelled as an explicit value type that is threaded through
return values (`Check × Option PyExc` for in-place mutation plus a possibly
propagating error, `Except String _` for the run loop's fatal errors).
-/

namespace Servo

/-- Model of a Python exception value: its class name and its message. -/
structure PyExc where
  kind : String
  msg : String
  deriving DecidableEq

/-- Model of Python `repr(exc)` for simple single-argument exceptions,
e.g. `ValueError('boom')`. -/
def pyRepr (e : PyExc) : String :=
  e.kind ++ "('" ++ e.msg ++ "')"

/-! ## BLAKE2b (as used by `Check._generated_id` via `hashlib.blake2b`)

The id validator computes `blake2b(name.encode('utf-8'), digest_size=4)`.
We implement unkeyed BLAKE2b (RFC 7693) over byte lists, with 64-bit words
as `Nat` reduced mod 2^64. -/

def MASK64 : Nat := 18446744073709551616

def add64 (a b : Nat) : Nat := (a + b) % MASK64

def xor64 (a b : Nat) : Nat := a ^^^ b

def rotr64 (x n : Nat) : Nat := ((x >>> n) ||| (x <<< (64 - n))) % MASK64

def blakeIV : List Nat :=
  [0x6a09e667f3bcc908, 0xbb67ae8584caa73b,
   0x3c6ef372fe94f82b, 0xa54ff53a5f1d36f1,
   0x510e527fade682d1, 0x9b05688c2b3e6c1f,
   0x1f83d9abfb41bd6b, 0x5be0cd19137e2179]

def blakeSigma : List (List Nat) :=
  [[0, 1, 2, 3, 4, 5, 6, 7, 8, 9, 10, 11, 12, 13, 14, 15],
   [14, 10, 4, 8, 9, 15, 13, 6, 1, 12, 0, 2, 11, 7, 5, 3],
   [11, 8, 12, 0, 5, 2, 15, 13, 10, 14, 3, 6, 7, 1, 9, 4],
   [7, 9, 3, 1, 13, 12, 11, 14, 2, 6, 5, 10, 4, 0, 15, 8],
   [9, 0, 5, 7, 2, 4, 10, 15, 14, 1, 11, 12, 6, 8, 3, 13],
   [2, 12, 6, 10, 0, 11, 8, 3, 4, 13, 7, 5, 15, 14, 1, 9],
   [12, 5, 1, 15, 14, 13, 4, 10, 0, 7, 6, 3, 9, 2, 8, 11],
   [13, 11, 7, 14, 12, 1, 3, 9, 5, 0, 15, 4, 8, 6, 2, 10],
   [6, 15, 14, 9, 11, 3, 0, 8, 12, 2, 13, 7, 1, 4, 10, 5],
   [10, 2, 8, 4, 7, 6, 1, 5, 15, 11, 9, 14, 3, 12, 13, 0]]

/-- The BLAKE2b mixing function G acting on working vector `v` at indices
`a b c d` with message words `x y`. -/
def gMix (v : List Nat) (a b c d : Nat) (x y : Nat) : List Nat :=
  let va := add64 (add64 (v.getD a 0) (v.getD b 0)) x
  let vd := rotr64 (xor64 (v.getD d 0) va) 32
  let vc := add64 (v.getD c 0) vd
  let vb := rotr64 (xor64 (v.getD b 0) vc) 24
  let va2 := add64 (add64 va vb) y
  let vd2 := rotr64 (xor64 vd va2) 16
  let vc2 := add64 vc vd2
  let vb2 := rotr64 (xor64 vb vc2) 63
  ((((v.set a va2).set b vb2).set c vc2).set d vd2)

/-- Little-endian 64-bit word from a byte list. -/
def leWord (bs : List Nat) : Nat :=
  bs.foldr (fun b acc => b + 256 * acc) 0

/-- One round of the BLAKE2b compression: the eight G applications with
the round's sigma permutation. -/
def blakeRound (m : List Nat) (v : List Nat) (r : Nat) : List Nat :=
  let s := blakeSigma.getD (r % 10) []
  let mi := fun i => m.getD (s.getD i 0) 0
  let v1 := gMix v 0 4 8 12 (mi 0) (mi 1)
  let v2 := gMix v1 1 5 9 13 (mi 2) (mi 3)
  let v3 := gMix v2 2 6 10 14 (mi 4) (mi 5)
  let v4 := gMix v3 3 7 11 15 (mi 6) (mi 7)
  let v5 := gMix v4 0 5 10 15 (mi 8) (mi 9)
  let v6 := gMix v5 1 6 11 12 (mi 10) (mi 11)
  let v7 := gMix v6 2 7 8 13 (mi 12) (mi 13)
  gMix v7 3 4 9 14 (mi 14) (mi 15)

/-- The BLAKE2b compression function F on state `h`, one 128-byte block,
byte offset counter `t`, and final-block flag `last`. -/
def blakeCompress (h : List Nat) (block : List Nat) (t : Nat) (last : Bool) : List Nat :=
  let m := (List.range 16).map fun i => leWord ((block.drop (8 * i)).take 8)
  let v0 := h ++ blakeIV
  let v1 := v0.set 12 (xor64 (v0.getD 12 0) (t % MASK64))
  let v2 := v1.set 13 (xor64 (v1.getD 13 0) (t / MASK64 % MASK64))
  let v3 := if last then v2.set 14 (xor64 (v2.getD 14 0) (MASK64 - 1)) else v2
  let v := (List.range 12).foldl (fun w r => blakeRound m w r) v3
  (List.range 8).map fun i => xor64 (xor64 (h.getD i 0) (v.getD i 0)) (v.getD (i + 8) 0)

/-- Pad a final block with zero bytes up to 128 bytes. -/
def padBlock (b : List Nat) : List Nat :=
  b ++ List.replicate (128 - b.length) 0

/-- Process the message 128 bytes at a time.  `fuel` bounds the number of
iterations (structural recursion so that the kernel can evaluate it);
callers supply enough fuel for the whole message. -/
def blakeBlocks (fuel : Nat) (h : List Nat) (msg : List Nat) (processed : Nat) : List Nat :=
  match fuel with
  | 0 => h
  | fuel + 1 =>
    if msg.length ≤ 128 then
      blakeCompress h (padBlock msg) (processed + msg.length) true
    else
      blakeBlocks fuel (blakeCompress h (msg.take 128) (processed + 128) false)
        (msg.drop 128) (processed + 128)

/-- Unkeyed BLAKE2b digest of `msg` (a byte list) with output length
`outlen` bytes: parameter-block word xored into IV0, block loop, then the
first `outlen` bytes of the little-endian serialization of the state. -/
def blake2bDigest (msg : List Nat) (outlen : Nat) : List Nat :=
  let h0 := blakeIV.set 0 (xor64 (blakeIV.getD 0 0) (0x01010000 ^^^ outlen))
  let h := blakeBlocks (msg.length / 128 + 1) h0 msg 0
  (List.range outlen).map fun i => ((h.getD (i / 8) 0) >>> (8 * (i % 8))) % 256

/-! ## Hex digests and UTF-8 (for `hexdigest()` and `str.encode('utf-8')`) -/

def hexTable : List Char := "0123456789abcdef".data

def hexDigit (n : Nat) : Char := hexTable.getD (n % 16) '0'

/-- Hex characters of a byte list, two characters per byte, high nibble
first, as produced by Python's `hexdigest()`. -/
def hexChars (bs : List Nat) : List Char :=
  bs.foldr (fun b acc => hexDigit (b / 16) :: hexDigit (b % 16) :: acc) []

def bytesToHex (bs : List Nat) : String := String.mk (hexChars bs)

/-- UTF-8 encoding of one Unicode scalar value as a byte list. -/
def utf8EncodeCharB (c : Char) : List Nat :=
  let n := c.toNat
  if n < 0x80 then [n]
  else if n < 0x800 then
    [0xC0 ||| (n >>> 6), 0x80 ||| (n &&& 0x3F)]
  else if n < 0x10000 then
    [0xE0 ||| (n >>> 12), 0x80 ||| ((n >>> 6) &&& 0x3F), 0x80 ||| (n &&& 0x3F)]
  else
    [0xF0 ||| (n >>> 18), 0x80 ||| ((n >>> 12) &&& 0x3F),
     0x80 ||| ((n >>> 6) &&& 0x3F), 0x80 ||| (n &&& 0x3F)]

/-- UTF-8 encoding of a string as a byte list (Python `s.encode('utf-8')`). -/
def utf8Bytes (s : String) : List Nat :=
  s.data.foldr (fun c acc => utf8EncodeCharB c ++ acc) []

/-! ## The `Check` model (`Check(BaseModel)` in `servo/checks.py`)

Timestamps (`datetime`) are modelled as `Int`; `Duration` (a `timedelta`
subclass in `servo/types.py`, not under `src/`) is modelled as the `Int`
difference of timestamps. -/

/-- The `Check` record: name, id, description, required flag, tags, and
the outcome fields success / message / exception plus timing metadata. -/
structure Check where
  name : String
  id : String
  description : Option String
  required : Bool
  tags : Option (List String)
  success : Option Bool
  message : Option String
  exception : Option PyExc
  created_at : Int
  run_at : Option Int
  runtime : Option Int
  deriving DecidableEq

/-- The `_generated_id` validator body: the 8-hex-character digest
`blake2b(name.encode('utf-8'), digest_size=4).hexdigest()`. -/
def Check.generatedId (name : String) : String :=
  bytesToHex (blake2bDigest (utf8Bytes name) 4)

/-- Construction of a `Check` through the pydantic validators: a missing
or falsy (empty) `id` is replaced by the generated digest of `name`, and a
missing `created_at` defaults to the construction time `now`. -/
def Check.make (now : Int) (name : String) (idv : Option String)
    (description : Option String) (required : Bool)
    (tags : Option (List String)) : Check :=
  { name := name
    id :=
      match idv with
      | some s => if s.isEmpty then Check.generatedId name else s
      | none => Check.generatedId name
    description := description
    required := required
    tags := tags
    success := none
    message := none
    exception := none
    created_at := now
    run_at := none
    runtime := none }

/-- The `Check.failed` property: `not self.success`, where a missing
(`None`) success also counts as failed. -/
def Check.failed (c : Check) : Bool :=
  match c.success with
  | some b => !b
  | none => true

/-! ## Regular expressions (Python `re.Pattern.search` at `Filter`'s use site)

`Filter._matches_str_attr` calls `attr.search(value)`.  We model the
pattern fragment the subsystem relies on—a possibly `^`-anchored literal
sequence of characters—with genuine `re.search` semantics: a non-anchored
pattern may match starting at any position of the string. -/

/-- A regex pattern: an optional leading `^` anchor and a literal body. -/
structure Regex where
  anchored : Bool
  pat : List Char
  deriving DecidableEq

/-- Does the literal body match at the head of `cs`? -/
def matchAtChars : List Char → List Char → Bool
  | [], _ => true
  | _ :: _, [] => false
  | p :: ps, c :: cs => p == c && matchAtChars ps cs

/-- Model of `re.Pattern.search`: an anchored pattern must match at the
start of the string; otherwise the pattern may match at any position. -/
def Regex.search (r : Regex) (v : String) : Bool :=
  if r.anchored then matchAtChars r.pat v.data
  else (List.range (v.data.length + 1)).any fun i => matchAtChars r.pat (v.data.drop i)

/-! ## Filter (`Filter(BaseModel)` in `servo/checks.py`) -/

/-- The value of a `Filter.name` / `Filter.id` attribute:
`Union[None, str, Sequence[str], Pattern[str]]`. -/
inductive StrAttr
  | unset
  | str (s : String)
  | strs (l : List String)
  | pat (r : Regex)
  deriving DecidableEq

/-- A filter over check name, id and tags. -/
structure Filter where
  name : StrAttr
  id : StrAttr
  tags : Option (List String)
  deriving DecidableEq

/-- The `Filter.empty` property: no constraints are in effect. -/
def Filter.empty (f : Filter) : Bool :=
  match f.name, f.id, f.tags with
  | .unset, .unset, none => true
  | _, _, _ => false

/-- The `Filter.any` property: some constraint is in effect. -/
def Filter.any (f : Filter) : Bool := !f.empty

/-- The `_matches_str_attr` helper: an unset attribute matches everything,
a string by equality, a sequence by membership, a pattern by `search`.
The source's trailing `raise ValueError` for unsupported attribute types
is unreachable here because `StrAttr` enumerates the supported types. -/
def matchesStrAttr : StrAttr → String → Bool
  | .unset, _ => true
  | .str a, v => v == a
  | .strs l, v => l.contains v
  | .pat r, v => r.search v

/-- The `_matches_tags` helper: no tag constraint matches everything, an
untagged check never matches a tag constraint, and otherwise the filter's
tag set must intersect the check's tag set. -/
def matchesTags (ftags : Option (List String)) (ctags : Option (List String)) : Bool :=
  match ftags with
  | none => true
  | some ts =>
    match ctags with
    | none => false
    | some cts => ts.any fun t => cts.contains t

/-- The `Filter.matches` predicate: empty filters match unconditionally,
otherwise the name, id and tags dimensions are combined with AND. -/
def Filter.matches (f : Filter) (c : Check) : Bool :=
  if f.empty then true
  else
    matchesStrAttr f.name c.name
      && matchesStrAttr f.id c.id
      && matchesTags f.tags c.tags

/-- The `HaltOnFailed` enumeration: halt on a failed required check, on
any failed check, or never. -/
inductive HaltOnFailed
  | requirement
  | check
  | never
  deriving DecidableEq

/-! ## Result coercion (`_set_check_result`)

A raw handler return value is a Python object: bool, str, tuple, `None`,
an exception instance (when called from an `except` clause), or anything
else.  Tuple elements are modelled as booleans or strings, which covers
every shape the claims exercise. -/

/-- A Python value that can appear inside a returned tuple. -/
inductive PyVal
  | b (b : Bool)
  | s (s : String)
  deriving DecidableEq

/-- A raw value passed to `_set_check_result`. -/
inductive RawResult
  | rbool (b : Bool)
  | rstr (s : String)
  | rtuple (elems : List PyVal)
  | rnone
  | rexc (e : PyExc)
  | rother (typeName : String)
  deriving DecidableEq

/-- The `ValueError` raised by tuple unpacking `a, b = result` when the
tuple's arity is not 2. -/
def unpackError (n : Nat) : PyExc :=
  if n < 2 then
    ⟨"ValueError", "not enough values to unpack (expected 2, got " ++ toString n ++ ")"⟩
  else
    ⟨"ValueError", "too many values to unpack (expected 2)"⟩

/-- The `ValueError` raised by `_set_check_result` for a value of an
unexpected type. -/
def unexpectedValueError (typeName : String) : PyExc :=
  ⟨"ValueError", "check method returned unexpected value of type \"" ++ typeName ++ "\""⟩

/-- Pydantic validation error when a tuple's second element is assigned to
the `StrictStr` field `message` but is not a string.  (Pydantic coercion
of a non-boolean first element is likewise modelled as a validation
error; the exact pydantic string-to-bool coercion table is outside the
behavior the claims exercise.) -/
def strictStrError : PyExc := ⟨"ValidationError", "str type expected"⟩

def boolCoercionError : PyExc := ⟨"ValidationError", "value could not be parsed to a boolean"⟩

/-- The `_set_check_result` function.  Python mutates `check` in place and
may raise; we return the mutated check together with the exception that
escapes, if any.  Note that `check.success = True` is executed before the
dispatch on the result's type, so a later failure leaves that mutation in
place. -/
def _set_check_result (c0 : Check) (result : RawResult) : Check × Option PyExc :=
  let c := {c0 with success := some true}
  match result with
  | .rstr s => ({c with message := some s}, none)
  | .rbool b => ({c with success := some b}, none)
  | .rtuple l =>
    match l with
    | [x, y] =>
      match x with
      | .b b =>
        match y with
        | .s s => ({c with success := some b, message := some s}, none)
        | .b _ => ({c with success := some b}, some strictStrError)
      | .s _ => (c, some boolCoercionError)
    | _ => (c, some (unpackError l.length))
  | .rnone => (c, none)
  | .rexc e =>
    ({ c with
        success := some false
        exception := some e
        message := some ("caught exception: " ++ pyRepr e) }, none)
  | .rother typeName => (c, some (unexpectedValueError typeName))

/-! ## Handler runners (`run_check_handler`, `run_check_handler_sync`)

Invoking the handler is modelled by its outcome: either a returned raw
value or a raised exception.  `t1` is `datetime.now()` at entry, `t2` at
the `finally` clause.  The returned pair is the mutated check and the
exception propagating out of the function, if any. -/

/-- The async handler runner: record `run_at`, invoke the handler, coerce
the outcome; any exception raised inside the `try` (including by
`_set_check_result` itself) is caught and coerced; the `finally` clause
always records `runtime`. -/
def run_check_handler (c0 : Check) (outcome : Except PyExc RawResult)
    (t1 t2 : Int) : Check × Option PyExc :=
  let c := {c0 with run_at := some t1}
  let step : Check × Option PyExc :=
    match outcome with
    | .ok r =>
      match _set_check_result c r with
      | (c1, none) => (c1, none)
      | (c1, some e) => _set_check_result c1 (.rexc e)
    | .error e => _set_check_result c (.rexc e)
  ({step.1 with runtime := some (t2 - t1)}, step.2)

/-- The synchronous handler runner; its body is identical to
`run_check_handler` apart from not awaiting the handler. -/
def run_check_handler_sync (c0 : Check) (outcome : Except PyExc RawResult)
    (t1 t2 : Int) : Check × Option PyExc :=
  let c := {c0 with run_at := some t1}
  let step : Check × Option PyExc :=
    match outcome with
    | .ok r =>
      match _set_check_result c r with
      | (c1, none) => (c1, none)
      | (c1, some e) => _set_check_result c1 (.rexc e)
    | .error e => _set_check_result c (.rexc e)
  ({step.1 with runtime := some (t2 - t1)}, step.2)

/-! ## The check run loop (`BaseChecks.run_`)

A discovered check method is its name, its optional `__check__` metadata
(absent when the method is not `Checkable`), and the value its invocation
produces.  Methods are identified by their position in the discovery
order, mirroring Python object identity in the `filtered_methods` list. -/

/-- What invoking a check method returns: a `Check`, or a value of some
other type (whose class name feeds the `TypeError` message). -/
inductive MethodReturn
  | check (c : Check)
  | nonCheck (typeName : String)
  deriving DecidableEq

/-- A discovered check method, in declaration order. -/
structure CheckMethod where
  methodName : String
  spec : Option Check
  result : MethodReturn
  deriving DecidableEq

/-- The warning logged for a non-`Checkable` method under an active filter. -/
def warnMsg (methodName : String) : String :=
  "filtering requested but encountered non-filterable check method \"" ++ methodName ++ "\""

/-- The `TypeError` message for a method that does not return a `Check`. -/
def typeErrMsg (methodName typeName : String) : String :=
  "check methods must return `Check` objects: `" ++ methodName ++ "` returned `" ++ typeName ++ "`"

/-- What the selection pass does with one method. -/
inductive Pass1Action
  | select
  | skip
  | warn
  deriving DecidableEq

/-- Pass 1 treatment of one method: with no filter (or an inactive one)
every method is selected; under an active filter a method without
`__check__` metadata is warned about, and otherwise selection follows
`Filter.matches` on the metadata. -/
def pass1Action (filter_ : Option Filter) (m : CheckMethod) : Pass1Action :=
  match filter_ with
  | none => .select
  | some f =>
    if f.any then
      match m.spec with
      | none => .warn
      | some spec => if f.matches spec then .select else .skip
    else .select

/-- Pass 1 over the method list starting at index `i`: the indices of the
selected methods (`filtered_methods`) and the logged warnings, in order. -/
def pass1 (filter_ : Option Filter) : Nat → List CheckMethod → List Nat × List String
  | _, [] => ([], [])
  | i, m :: rest =>
    let r := pass1 filter_ (i + 1) rest
    match pass1Action filter_ m with
    | .select => (i :: r.1, r.2)
    | .skip => r
    | .warn => (r.1, warnMsg m.methodName :: r.2)

/-- The halt test applied after appending a result: stop when the check
failed and the policy is `check`, or the policy is `requirement` and the
check is required. -/
def haltAfter (halt_on : HaltOnFailed) (c : Check) : Bool :=
  c.failed &&
    (match halt_on with
     | .check => true
     | .requirement => c.required
     | .never => false)

/-- Executing one method inside pass 2: a non-`Check` return raises the
`TypeError`; otherwise the result is appended and the run either halts
(returning what has accumulated, ending with this result) or continues
with `cont`. -/
def execStep (halt_on : HaltOnFailed) (m : CheckMethod)
    (cont : Except String (List Check)) : Except String (List Check) :=
  match m.result with
  | .nonCheck typeName => .error (typeErrMsg m.methodName typeName)
  | .check c =>
    if haltAfter halt_on c then .ok [c]
    else cont.map fun cs => c :: cs

/-- Pass 2 over the indexed method list with the current
`filtered_methods` set: a selected method is removed from the set and
run; an unselected method with metadata runs only if it is required and
selected methods remain; an unselected method without metadata runs
unconditionally. -/
def pass2 (halt_on : HaltOnFailed) :
    List (Nat × CheckMethod) → List Nat → Except String (List Check)
  | [], _ => .ok []
  | (i, m) :: rest, filtered =>
    if filtered.contains i then
      execStep halt_on m (pass2 halt_on rest (filtered.erase i))
    else
      match m.spec with
      | some spec =>
        if spec.required && !filtered.isEmpty then
          execStep halt_on m (pass2 halt_on rest filtered)
        else
          pass2 halt_on rest filtered
      | none => execStep halt_on m (pass2 halt_on rest filtered)

/-- The `BaseChecks.run_` method over the discovered method list. -/
def run_ (methods : List CheckMethod) (filter_ : Option Filter)
    (halt_on : HaltOnFailed) : Except String (List Check) :=
  pass2 halt_on (List.enumFrom 0 methods) (pass1 filter_ 0 methods).1

/-- The warnings `run_` logs during its selection pass. -/
def runWarnings (methods : List CheckMethod) (filter_ : Option Filter) : List String :=
  (pass1 filter_ 0 methods).2

/-! ## Reference functions used to state the claims -/

deriving instance DecidableEq for Except

/-- The prefix of a result sequence up to and including the first element
satisfying `p`: the spec's halt policy keeps the failing result itself. -/
def takeThrough (p : Check → Bool) : List Check → List Check
  | [] => []
  | c :: cs => if p c then [c] else c :: takeThrough p cs

/-- Reference execution with no filtering: every method runs in order,
subject only to the `TypeError` contract and the halt policy. -/
def runAll (halt_on : HaltOnFailed) : List CheckMethod → Except String (List Check)
  | [] => .ok []
  | m :: rest => execStep halt_on m (runAll halt_on rest)

/-- The `Check` a method's invocation returns, when it returns one. -/
def methodCheck (m : CheckMethod) : Option Check :=
  match m.result with
  | .check c => some c
  | .nonCheck _ => none

/-- A test check record with explicit name, id, required flag and success
state; the remaining fields take their unrun defaults. -/
def tc (name id : String) (required : Bool) (success : Option Bool) : Check :=
  { name := name
    id := id
    description := none
    required := required
    tags := none
    success := success
    message := none
    exception := none
    created_at := 0
    run_at := none
    runtime := none }

/-- A decorated check method whose metadata and returned check share the
given name, id and required flag; the returned check has the given
success state. -/
def tm (name id : String) (required : Bool) (success : Option Bool) : CheckMethod :=
  { methodName := "check_" ++ id
    spec := some (tc name id required none)
    result := .check (tc name id required success) }

/-- A check method standing for one already-run check with no metadata
relevant to an unfiltered run. -/
def retMethod (c : Check) : CheckMethod :=
  { methodName := "check_" ++ c.id, spec := some c, result := .check c }

/-! ## Lemmas about the two-pass run loop -/

theorem pass1_none_eq (ms : List CheckMethod) :
    ∀ k, pass1 none k ms = (List.range' k ms.length, []) := by
  induction ms with
  | nil => intro k; rfl
  | cons m rest ih =>
    intro k
    simp [pass1, pass1Action, ih (k + 1), List.range']

theorem pass2_enumFrom (halt_on : HaltOnFailed) (ms : List CheckMethod) :
    ∀ k, pass2 halt_on (List.enumFrom k ms) (List.range' k ms.length) = runAll halt_on ms := by
  induction ms with
  | nil => intro k; rfl
  | cons m rest ih =>
    intro k
    have h1 : List.range' k ((m :: rest).length) = k :: List.range' (k + 1) rest.length := rfl
    have h2 : List.enumFrom k (m :: rest) = (k, m) :: List.enumFrom (k + 1) rest := rfl
    rw [h1, h2]
    simp [pass2, runAll, List.erase_cons_head, ih (k + 1)]

/-- With no filter, `run_` degenerates to running every method in order. -/
theorem run_none_eq_runAll (methods : List CheckMethod) (halt_on : HaltOnFailed) :
    run_ methods none halt_on = runAll halt_on methods := by
  unfold run_
  rw [pass1_none_eq]
  exact pass2_enumFrom halt_on methods 0

/-- When every method returns a `Check`, the unfiltered run returns the
result sequence cut off just after the first result that triggers the
halt policy. -/
theorem runAll_ok_takeThrough (halt_on : HaltOnFailed) (ms : List CheckMethod)
    (h : ∀ m ∈ ms, (methodCheck m).isSome) :
    runAll halt_on ms = .ok (takeThrough (haltAfter halt_on) (ms.filterMap methodCheck)) := by
  induction ms with
  | nil => rfl
  | cons m rest ih =>
    have hm := h m (List.mem_cons_self m rest)
    obtain ⟨c, hc⟩ : ∃ c, m.result = .check c := by
      cases hr : m.result with
      | check c => exact ⟨c, rfl⟩
      | nonCheck t => rw [methodCheck, hr] at hm; simp at hm
    have hrest : ∀ m' ∈ rest, (methodCheck m').isSome :=
      fun m' hm' => h m' (List.mem_cons_of_mem m hm')
    by_cases hhalt : haltAfter halt_on c = true
    · simp [runAll, execStep, hc, methodCheck, takeThrough, hhalt]
    · simp [runAll, execStep, hc, methodCheck, takeThrough, hhalt, ih hrest, Except.map]

/-- If none of the checks before a non-`Check`-returning method would
halt the run, the unfiltered run raises the `TypeError`. -/
theorem runAll_append_error (halt_on : HaltOnFailed) (pre : List Check)
    (nm tn : String) (h : ∀ c ∈ pre, haltAfter halt_on c = false) :
    runAll halt_on (pre.map retMethod ++ [⟨nm, none, .nonCheck tn⟩])
      = .error (typeErrMsg nm tn) := by
  induction pre with
  | nil => rfl
  | cons c rest ih =>
    have hc := h c (List.mem_cons_self c rest)
    have hrest : ∀ c' ∈ rest, haltAfter halt_on c' = false :=
      fun c' hc' => h c' (List.mem_cons_of_mem c hc')
    simp [runAll, execStep, retMethod, hc, ih hrest, Except.map]

/-! ## Claim scenarios -/

def haltA : CheckMethod := tm "A" "a" false (some true)

def haltB : CheckMethod := tm "B" "b" true (some false)

def haltC : CheckMethod := tm "C" "c" false (some true)

def ordA : CheckMethod := tm "A" "a" true (some true)

def ordB : CheckMethod := tm "B" "b" false (some true)

def ordC : CheckMethod := tm "C" "c" true (some true)

def ordD : CheckMethod := tm "D" "d" false (some true)

def ordE : CheckMethod := tm "E" "e" true (some true)

/-- A filter selecting exactly the check with id `d`. -/
def selD : Filter := { name := .unset, id := .str "d", tags := none }

/-! ## Claim theorems -/

/-- C1: for checks [A(success), B(required, failed), C(success)],
`run_` with `halt_on=requirement` and with `halt_on=check` returns `[A, B]`
and with `halt_on=never` returns `[A, B, C]`; in general an unfiltered run
over check-returning methods returns the result sequence truncated just
after the first result with `failed` and (`halt_on = check`, or
`halt_on = requirement` and `required`) — the failing result included. -/
theorem halt_policy_spec :
    (run_ [haltA, haltB, haltC] none .requirement
      = .ok [tc "A" "a" false (some true), tc "B" "b" true (some false)])
    ∧ (run_ [haltA, haltB, haltC] none .check
      = .ok [tc "A" "a" false (some true), tc "B" "b" true (some false)])
    ∧ (run_ [haltA, haltB, haltC] none .never
      = .ok [tc "A" "a" false (some true), tc "B" "b" true (some false),
             tc "C" "c" false (some true)])
    ∧ ∀ (methods : List CheckMethod) (halt_on : HaltOnFailed),
        (∀ m ∈ methods, (methodCheck m).isSome) →
        run_ methods none halt_on
          = .ok (takeThrough (haltAfter halt_on) (methods.filterMap methodCheck)) := by
  refine ⟨by decide, by decide, by decide, fun methods halt_on h => ?_⟩
  rw [run_none_eq_runAll]
  exact runAll_ok_takeThrough halt_on methods h

/-- Witness for C1's general clause at a concrete one-method run. -/
theorem halt_policy_witness :
    run_ [haltA] none .never
      = .ok (takeThrough (haltAfter .never) ([haltA].filterMap methodCheck)) :=
  halt_policy_spec.2.2.2 [haltA] .never (by decide)

/-- C2: with decorated methods [A(required), B, C(required), D] and a
filter selecting only D, `run_` with `halt_on=requirement` executes
exactly A, C, D in that order (B is skipped); and once the selected set
is exhausted, a required-but-unselected method no longer runs, as in the
run [D, E(required)] under the same filter, which executes only D. -/
theorem ordering_invariant_spec :
    (run_ [ordA, ordB, ordC, ordD] (some selD) .requirement
      = .ok [tc "A" "a" true (some true), tc "C" "c" true (some true),
             tc "D" "d" false (some true)])
    ∧ (run_ [ordD, ordE] (some selD) .requirement
      = .ok [tc "D" "d" false (some true)]) := by
  exact ⟨by decide, by decide⟩

/-- C9: a check method whose invocation returns a value that is not a
`Check` makes the run raise the `TypeError` (it propagates out of `run_`
as an error rather than being coerced into a result), provided no earlier
check already halted the run. -/
theorem noncheck_return_spec (pre : List Check) (nm tn : String)
    (halt_on : HaltOnFailed) (h : ∀ c ∈ pre, haltAfter halt_on c = false) :
    run_ (pre.map retMethod ++ [⟨nm, none, .nonCheck tn⟩]) none halt_on
      = .error (typeErrMsg nm tn) := by
  rw [run_none_eq_runAll]
  exact runAll_append_error halt_on pre nm tn h

/-- Witness for C9 at a concrete run of one passing check followed by a
method returning a string. -/
theorem noncheck_return_witness :
    run_ ([tc "A" "a" false (some true)].map retMethod
        ++ [⟨"check_bad", none, .nonCheck "str"⟩]) none .requirement
      = .error (typeErrMsg "check_bad" "str") :=
  noncheck_return_spec [tc "A" "a" false (some true)] "check_bad" "str"
    .requirement (by decide)

/-! ## Coercion and handler-runner lemmas -/

/-- Result coercion never touches the `run_at` field. -/
theorem set_result_run_at (c : Check) (r : RawResult) :
    (_set_check_result c r).1.run_at = c.run_at := by
  unfold _set_check_result
  rcases r with b | s | l | _ | e | t
  case rtuple =>
    rcases l with _ | ⟨x, l⟩
    · rfl
    rcases l with _ | ⟨y, l⟩
    · rfl
    rcases l with _ | ⟨z, l⟩
    · rcases x with b | s
      · rcases y with b2 | s2 <;> rfl
      · rfl
    · rfl
  all_goals rfl

/-- The async handler runner records `run_at = t1` on every path. -/
theorem run_check_handler_run_at (c : Check) (o : Except PyExc RawResult) (t1 t2 : Int) :
    (run_check_handler c o t1 t2).1.run_at = some t1 := by
  unfold run_check_handler
  rcases o with e | r
  · simpa using set_result_run_at {c with run_at := some t1} (.rexc e)
  · rcases h : _set_check_result {c with run_at := some t1} r with ⟨c1, o1⟩
    have h1 := set_result_run_at {c with run_at := some t1} r
    rw [h] at h1
    rcases o1 with _ | e1
    · simpa [h] using h1
    · have h2 := set_result_run_at c1 (.rexc e1)
      simp only [h, h2]
      simpa using h1

/-- The sync handler runner records `run_at = t1` on every path. -/
theorem run_check_handler_sync_run_at (c : Check) (o : Except PyExc RawResult) (t1 t2 : Int) :
    (run_check_handler_sync c o t1 t2).1.run_at = some t1 := by
  unfold run_check_handler_sync
  rcases o with e | r
  · simpa using set_result_run_at {c with run_at := some t1} (.rexc e)
  · rcases h : _set_check_result {c with run_at := some t1} r with ⟨c1, o1⟩
    have h1 := set_result_run_at {c with run_at := some t1} r
    rw [h] at h1
    rcases o1 with _ | e1
    · simpa [h] using h1
    · have h2 := set_result_run_at c1 (.rexc e1)
      simp only [h, h2]
      simpa using h1

/-- C3: result coercion sets the fields exactly as specified for each
accepted shape: a boolean sets `success` and leaves `message` unchanged; a
string sets `success = true` and the message; a `(bool, str)` pair sets
both; `None` sets `success = true`; an exception sets `success = false`,
stores the exception, and sets the `caught exception:` message.  In each
case nothing is raised. -/
theorem result_coercion_spec (c : Check) (b : Bool) (s : String) (e : PyExc) :
    (_set_check_result c (.rbool b) = ({c with success := some b}, none))
    ∧ (_set_check_result c (.rstr s)
      = ({c with success := some true, message := some s}, none))
    ∧ (_set_check_result c (.rtuple [.b b, .s s])
      = ({c with success := some b, message := some s}, none))
    ∧ (_set_check_result c .rnone = ({c with success := some true}, none))
    ∧ (_set_check_result c (.rexc e)
      = ({ c with
            success := some false
            exception := some e
            message := some ("caught exception: " ++ pyRepr e) }, none)) :=
  ⟨rfl, rfl, rfl, rfl, rfl⟩

/-- C4: a handler returning a value of an unexpected type (here: an
`int`) does NOT propagate the `ValueError` out of `run_check_handler`:
the error raised by `_set_check_result` is caught by the blanket
`except Exception` clause and coerced into a failed result, contradicting
the runner's own documented `Raises: ValueError` contract. -/
theorem unexpected_type_coerced_bug :
    run_check_handler (tc "t" "t" false none) (.ok (.rother "int")) 0 5
      = ({ tc "t" "t" false none with
            run_at := some 0
            runtime := some 5
            success := some false
            exception := some (unexpectedValueError "int")
            message := some ("caught exception: " ++ pyRepr (unexpectedValueError "int")) },
         none) := by
  decide

/-- C7: on every exit path of both handler runners — the handler throwing
included — the returned check has `run_at` set to the start timestamp and
`runtime` set to the elapsed time, which is non-negative whenever the
clock is monotone across the call. -/
theorem timing_invariant_spec (c : Check) (o : Except PyExc RawResult)
    (t1 t2 : Int) (h : t1 ≤ t2) :
    (run_check_handler c o t1 t2).1.run_at = some t1
    ∧ (run_check_handler c o t1 t2).1.runtime = some (t2 - t1)
    ∧ (run_check_handler_sync c o t1 t2).1.run_at = some t1
    ∧ (run_check_handler_sync c o t1 t2).1.runtime = some (t2 - t1)
    ∧ 0 ≤ t2 - t1 := by
  refine ⟨run_check_handler_run_at c o t1 t2, rfl,
    run_check_handler_sync_run_at c o t1 t2, rfl, ?_⟩
  omega

/-- Witness for C7: a handler that throws, timed from 2 to 5. -/
theorem timing_invariant_witness :
    (run_check_handler (tc "t" "t" false none) (.error ⟨"RuntimeError", "boom"⟩) 2 5).1.run_at
        = some 2
    ∧ (run_check_handler (tc "t" "t" false none) (.error ⟨"RuntimeError", "boom"⟩) 2 5).1.runtime
        = some (5 - 2)
    ∧ (run_check_handler_sync (tc "t" "t" false none) (.error ⟨"RuntimeError", "boom"⟩) 2 5).1.run_at
        = some 2
    ∧ (run_check_handler_sync (tc "t" "t" false none) (.error ⟨"RuntimeError", "boom"⟩) 2 5).1.runtime
        = some (5 - 2)
    ∧ (0 : Int) ≤ 5 - 2 :=
  timing_invariant_spec (tc "t" "t" false none) (.error ⟨"RuntimeError", "boom"⟩) 2 5
    (by decide)

/-- C10: a handler returning a tuple whose arity is not 2 does not make
the runner raise: the unpacking `ValueError` is caught and coerced into a
failed result carrying the exception and a `caught exception:` message,
and nothing propagates (the second component is `none`). -/
theorem tuple_arity_coerced_spec (c : Check) (l : List PyVal) (t1 t2 : Int)
    (h : l.length ≠ 2) :
    run_check_handler c (.ok (.rtuple l)) t1 t2
        = ({ c with
              run_at := some t1
              runtime := some (t2 - t1)
              success := some false
              exception := some (unpackError l.length)
              message := some ("caught exception: " ++ pyRepr (unpackError l.length)) },
           none)
    ∧ run_check_handler_sync c (.ok (.rtuple l)) t1 t2
        = ({ c with
              run_at := some t1
              runtime := some (t2 - t1)
              success := some false
              exception := some (unpackError l.length)
              message := some ("caught exception: " ++ pyRepr (unpackError l.length)) },
           none) := by
  rcases l with _ | ⟨x, _ | ⟨y, _ | ⟨z, rest⟩⟩⟩
  · exact ⟨rfl, rfl⟩
  · exact ⟨rfl, rfl⟩
  · exact absurd rfl h
  · exact ⟨rfl, rfl⟩

/-- Witness for C10: the empty tuple, timed from 0 to 7. -/
theorem tuple_arity_coerced_witness :
    run_check_handler (tc "t" "t" false none) (.ok (.rtuple [])) 0 7
        = ({ tc "t" "t" false none with
              run_at := some 0
              runtime := some (7 - 0)
              success := some false
              exception := some (unpackError (List.length ([] : List PyVal)))
              message := some ("caught exception: "
                ++ pyRepr (unpackError (List.length ([] : List PyVal)))) },
           none)
    ∧ run_check_handler_sync (tc "t" "t" false none) (.ok (.rtuple [])) 0 7
        = ({ tc "t" "t" false none with
              run_at := some 0
              runtime := some (7 - 0)
              success := some false
              exception := some (unpackError (List.length ([] : List PyVal)))
              message := some ("caught exception: "
                ++ pyRepr (unpackError (List.length ([] : List PyVal)))) },
           none) :=
  tuple_arity_coerced_spec (tc "t" "t" false none) [] 0 7 (by decide)

/-! ## Generated id: digest shape lemmas and test vectors -/

set_option maxRecDepth 100000

/-- Validation of the hash against the RFC 7693 appendix test vector for
BLAKE2b-512 of "abc". -/
theorem blake2b_rfc7693_abc_vector :
    bytesToHex (blake2bDigest (utf8Bytes "abc") 64)
      = "ba80a53f981c4d0d6a2797b69f12f6e94c212f14685ac4b74b12bb6fdbffa2d17d87c5392aab792dc252d5de4533cc9518d38aa8dbf1925ab92386edd4009923" := by
  decide

/-- Validation of the 4-byte digest against
`hashlib.blake2b(b'abc', digest_size=4).hexdigest()` and the empty-name
case `hashlib.blake2b(b'', digest_size=4).hexdigest()`. -/
theorem generatedId_hashlib_vectors :
    Check.generatedId "abc" = "63906248" ∧ Check.generatedId "" = "1271cf25" := by
  exact ⟨by decide, by decide⟩

/-- A `getD` lookup is either the default or an element of the list. -/
theorem getD_mem_or {α : Type} (l : List α) (n : Nat) (d : α) :
    l.getD n d = d ∨ l.getD n d ∈ l := by
  induction l generalizing n with
  | nil => left; rfl
  | cons a t ih =>
    cases n with
    | zero => right; simp [List.getD]
    | succ n =>
      rcases ih n with h | h
      · left; simpa [List.getD] using h
      · right
        have : (a :: t).getD (n + 1) d = t.getD n d := by simp [List.getD]
        rw [this]
        exact List.mem_cons_of_mem a h

/-- Every character emitted by `hexDigit` is a hexadecimal digit. -/
theorem hexDigit_mem (n : Nat) : hexDigit n ∈ hexTable := by
  rcases getD_mem_or hexTable (n % 16) '0' with h | h
  · rw [hexDigit, h]; decide
  · rw [hexDigit]; exact h

/-- A hex rendering has two characters per byte. -/
theorem hexChars_length (bs : List Nat) : (hexChars bs).length = 2 * bs.length := by
  induction bs with
  | nil => rfl
  | cons b t ih => simp [hexChars] at ih ⊢; omega

/-- Every character of a hex rendering is a hexadecimal digit. -/
theorem hexChars_mem (bs : List Nat) : ∀ ch ∈ hexChars bs, ch ∈ hexTable := by
  induction bs with
  | nil => intro ch h; cases h
  | cons b t ih =>
    intro ch h
    have hc : hexChars (b :: t) = hexDigit (b / 16) :: hexDigit (b % 16) :: hexChars t := rfl
    rw [hc] at h
    rcases List.mem_cons.mp h with h | h
    · rw [h]; exact hexDigit_mem (b / 16)
    rcases List.mem_cons.mp h with h | h
    · rw [h]; exact hexDigit_mem (b % 16)
    · exact ih ch h

/-- The digest always has exactly `outlen` bytes. -/
theorem blake2bDigest_length (msg : List Nat) (outlen : Nat) :
    (blake2bDigest msg outlen).length = outlen := by
  simp [blake2bDigest]

/-- C5: a `Check` constructed with `name = s` and no explicit id gets the
BLAKE2b digest of the UTF-8 encoding of `s` truncated to 4 bytes, in hex;
the id does not depend on anything but the name (same name, same id, on
every construction), has exactly 8 characters, and every character is a
hexadecimal digit. -/
theorem generated_id_spec (now now2 : Int) (s : String) :
    (Check.make now s none none false none).id
        = bytesToHex (blake2bDigest (utf8Bytes s) 4)
    ∧ (Check.make now s none none false none).id
        = (Check.make now2 s none none false none).id
    ∧ ((Check.make now s none none false none).id).length = 8
    ∧ ∀ ch ∈ ((Check.make now s none none false none).id).data, ch ∈ hexTable := by
  refine ⟨rfl, rfl, ?_, ?_⟩
  · show (bytesToHex (blake2bDigest (utf8Bytes s) 4)).length = 8
    show (hexChars (blake2bDigest (utf8Bytes s) 4)).length = 8
    rw [hexChars_length, blake2bDigest_length]
  · show ∀ ch ∈ hexChars (blake2bDigest (utf8Bytes s) 4), ch ∈ hexTable
    exact hexChars_mem (blake2bDigest (utf8Bytes s) 4)

/-! ## Filter matching: spec-side characterization -/

/-- The spec's reading of one name/id filter dimension: absent matches
everything, a string matches by equality, a sequence by membership, and a
regex by a match found at some position of the string (anywhere for a
non-anchored pattern — search, not anchored full-match). -/
def attrSpecHolds : StrAttr → String → Prop
  | .unset, _ => True
  | .str a, v => v = a
  | .strs l, v => v ∈ l
  | .pat r, v =>
    if r.anchored then matchAtChars r.pat v.data = true
    else ∃ i, i ≤ v.data.length ∧ matchAtChars r.pat (v.data.drop i) = true

/-- The spec's reading of the tags dimension: an absent tag constraint
matches everything, a check with no tags never matches a tag constraint,
and otherwise the two tag sets must intersect. -/
def tagsSpecHolds : Option (List String) → Option (List String) → Prop
  | none, _ => True
  | some _, none => False
  | some ts, some cts => ∃ t, t ∈ ts ∧ t ∈ cts

theorem matchesStrAttr_iff (a : StrAttr) (v : String) :
    matchesStrAttr a v = true ↔ attrSpecHolds a v := by
  cases a with
  | unset => simp [matchesStrAttr, attrSpecHolds]
  | str s => simp [matchesStrAttr, attrSpecHolds]
  | strs l =>
    show l.elem v = true ↔ v ∈ l
    exact List.elem_iff
  | pat r =>
    simp only [matchesStrAttr, attrSpecHolds, Regex.search]
    by_cases hr : r.anchored
    · simp [hr]
    · simp [hr, List.any_eq_true, List.mem_range, Nat.lt_succ_iff]

theorem matchesTags_iff (ft ct : Option (List String)) :
    matchesTags ft ct = true ↔ tagsSpecHolds ft ct := by
  cases ft with
  | none => simp [matchesTags, tagsSpecHolds]
  | some ts =>
    cases ct with
    | none => simp [matchesTags, tagsSpecHolds]
    | some cts =>
      simp only [matchesTags, tagsSpecHolds, List.any_eq_true]
      constructor
      · rintro ⟨t, ht, hc⟩
        exact ⟨t, ht, List.elem_iff.mp hc⟩
      · rintro ⟨t, ht, hc⟩
        exact ⟨t, ht, List.elem_iff.mpr hc⟩

/-- C6: `Filter.matches` returns true unconditionally for an empty filter
and is otherwise the AND of the name, id and tags dimensions with the
spec's semantics for each; concretely, a tags filter `{x}` matches tags
`{x, y}` but neither an untagged check nor tags `{y}`; an id regex `^db`
matches `db-conn` but not `cache-conn`; and a non-anchored pattern `conn`
matches `db-conn` by searching anywhere in the string. -/
theorem filter_matches_spec :
    (∀ (f : Filter) (c : Check),
      f.matches c = true
        ↔ (f.empty = true
            ∨ (attrSpecHolds f.name c.name ∧ attrSpecHolds f.id c.id
                ∧ tagsSpecHolds f.tags c.tags)))
    ∧ ((Filter.mk .unset .unset (some ["x"])).matches
        { tc "T" "t" false none with tags := some ["x", "y"] } = true)
    ∧ ((Filter.mk .unset .unset (some ["x"])).matches (tc "T" "t" false none) = false)
    ∧ ((Filter.mk .unset .unset (some ["x"])).matches
        { tc "T" "t" false none with tags := some ["y"] } = false)
    ∧ ((Filter.mk .unset (.pat ⟨true, ['d', 'b']⟩) none).matches
        (tc "DB" "db-conn" false none) = true)
    ∧ ((Filter.mk .unset (.pat ⟨true, ['d', 'b']⟩) none).matches
        (tc "CA" "cache-conn" false none) = false)
    ∧ ((Filter.mk .unset (.pat ⟨false, ['c', 'o', 'n', 'n']⟩) none).matches
        (tc "DB" "db-conn" false none) = true) := by
  refine ⟨fun f c => ?_, by decide, by decide, by decide, by decide, by decide, by decide⟩
  unfold Filter.matches
  by_cases he : f.empty = true
  · simp [he]
  · simp only [he, Bool.false_eq_true, if_false, false_or, Bool.and_eq_true,
      matchesStrAttr_iff, matchesTags_iff, and_assoc]

/-! ## Non-filterable methods under an active filter (pass 1 versus pass 2) -/

/-- A check method carrying no `__check__` metadata. -/
def plainMethod : CheckMethod :=
  { methodName := "check_plain", spec := none, result := .check (tc "P" "p" false (some true)) }

/-- A filter with an active name constraint that matches nothing here. -/
def activeFilter : Filter := { name := .str "x", id := .unset, tags := none }

/-- C8 counterexample: under a filter with an active constraint, a method
without check metadata is warned about during selection but is NOT
skipped: `run_` still executes it and its result appears in the returned
list — the claim's "does not execute and contributes no result to the
returned list" fails on this input. -/
theorem nonfilterable_runs_counterexample :
    run_ [plainMethod] (some activeFilter) .requirement
        = .ok [tc "P" "p" false (some true)]
    ∧ runWarnings [plainMethod] (some activeFilter) = [warnMsg "check_plain"] := by
  exact ⟨by decide, by decide⟩

/-- C8 amended: under an active filter, a method without metadata is
excluded from selection with a logged warning (pass 1 classifies it
`warn`, never `select`), but in the execution pass an unselected
metadata-less method still runs: pass 2 proceeds by executing it rather
than skipping it. -/
theorem nonfilterable_amended_spec (f : Filter) (m : CheckMethod) (i : Nat)
    (filtered : List Nat) (rest : List (Nat × CheckMethod)) (halt_on : HaltOnFailed)
    (hf : f.any = true) (hm : m.spec = none) :
    pass1Action (some f) m = .warn
    ∧ (filtered.contains i = false →
        pass2 halt_on ((i, m) :: rest) filtered
          = execStep halt_on m (pass2 halt_on rest filtered)) := by
  constructor
  · simp [pass1Action, hf, hm]
  · intro hc
    have hni : i ∉ filtered := by simpa using hc
    simp [pass2, hc, hm]
    exact fun hmem => absurd hmem hni

/-- Witness for C8's amended claim at the concrete scenario. -/
theorem nonfilterable_amended_witness :
    pass1Action (some activeFilter) plainMethod = .warn
    ∧ (List.contains ([] : List Nat) 0 = false →
        pass2 .requirement [(0, plainMethod)] []
          = execStep .requirement plainMethod (pass2 .requirement [] [])) :=
  nonfilterable_amended_spec activeFilter plainMethod 0 [] [] .requirement
    (by decide) (by decide)

end Servo
